import Mathlib

/-!
Verification of the HubSpot-to-BigQuery snapshot ETL pipeline
(src/etl-pipeline/main.py). The Python functions relevant to the
checked properties are shallowly embedded as executable Lean
definitions, and the properties are settled as theorems about those
definitions. Machine reals from the source are modelled as exact
rationals, instants as integer microsecond counts since the Unix
epoch, and network calls as explicit response scripts.
-/

/-- Substring occurrence test: decides whether the character list
`pat` occurs contiguously inside the second list. Models the Python
expression `pat in s` for strings. -/
def substrAux (pat : List Char) : List Char → Bool
  | [] => pat.isEmpty
  | c :: rest => pat.isPrefixOf (c :: rest) || substrAux pat rest

/-- Python substring containment `pat in s`. -/
def pyIn (pat s : String) : Bool := substrAux pat.data s.data

/-- Python `s.lower()` (ASCII case folding, which covers every stage
label keyword the source compares against). -/
def pyLower (s : String) : String := String.mk (s.data.map Char.toLower)

/-- Status flags computed for each transformed row by
`transform_deals` (main.py lines 1098-1102). -/
structure DealFlags where
  is_open : Bool
  is_won : Bool
  is_lost : Bool
deriving DecidableEq, Repr

/-- Embedding of the flag computation in `transform_deals`:
stage_lower is the lowercased label (empty for a falsy label), is_won
and is_lost are substring tests against it, and is_open is the
conjunction of their negations. -/
def dealStatusFlags (dealstage_label : String) : DealFlags :=
  let stage_lower := if dealstage_label = "" then "" else pyLower dealstage_label
  let is_won := pyIn "won" stage_lower || pyIn "closed won" stage_lower
  let is_lost := pyIn "lost" stage_lower || pyIn "closed lost" stage_lower
  let is_open := !is_won && !is_lost
  ⟨is_open, is_won, is_lost⟩

/-- Exactly one of three booleans is true. -/
def exactlyOneBool (a b c : Bool) : Bool := a.toNat + b.toNat + c.toNat == 1

/-- Outcome of the Python float() coercion of one raw deal property
value, as consumed by `safe_float` (main.py lines 921-928): the
property is missing (props.get returned None), is the empty string,
raises on coercion, or coerces to the rational q. -/
inductive RawVal where
  | missing
  | emptyStr
  | nonNumeric
  | numeric (q : ℚ)
deriving DecidableEq, Repr

/-- Embedding of `safe_float`: None and the empty string yield None,
a failed coercion yields None, a successful coercion returns the
value. -/
def safe_float : RawVal → Option ℚ
  | .missing => none
  | .emptyStr => none
  | .nonNumeric => none
  | .numeric q => some q

/-- Embedding of the weighted-amount computation in `transform_deals`
(main.py lines 1104-1110): None unless both safe_float coercions
succeed, otherwise their product. -/
def weighted_amount (amountRaw probabilityRaw : RawVal) : Option ℚ :=
  match safe_float amountRaw, safe_float probabilityRaw with
  | some a, some p => some (a * p)
  | _, _ => none

/-- C1 counterexample: for the resolved stage label "Won then Lost",
whose lowercase form contains both "won" and "lost" as substrings,
the transformed row has is_won = true and is_lost = true at once, so
the exactly-one-of-three property claimed for every resolved stage
label fails at this label. -/
theorem c1_counterexample :
    exactlyOneBool (dealStatusFlags "Won then Lost").is_open
      (dealStatusFlags "Won then Lost").is_won
      (dealStatusFlags "Won then Lost").is_lost = false ∧
    (dealStatusFlags "Won then Lost").is_won = true ∧
    (dealStatusFlags "Won then Lost").is_lost = true := by
  decide

/-- C1 (amended): for every resolved stage label, is_open is the
negation of both match flags, and whenever the label does not make
is_won and is_lost true simultaneously (that is, its lowercase form
does not contain both "won" and "lost"), exactly one of is_open,
is_won, is_lost is true. -/
theorem c1_amended_exclusivity (label : String)
    (h : ¬((dealStatusFlags label).is_won = true ∧
            (dealStatusFlags label).is_lost = true)) :
    (dealStatusFlags label).is_open
      = (!(dealStatusFlags label).is_won && !(dealStatusFlags label).is_lost) ∧
    exactlyOneBool (dealStatusFlags label).is_open
      (dealStatusFlags label).is_won (dealStatusFlags label).is_lost = true := by
  refine ⟨rfl, ?_⟩
  have hopen : (dealStatusFlags label).is_open
      = (!(dealStatusFlags label).is_won && !(dealStatusFlags label).is_lost) := rfl
  rw [hopen]
  cases hw : (dealStatusFlags label).is_won <;>
    cases hl : (dealStatusFlags label).is_lost <;>
      simp_all [exactlyOneBool]

/-- C1 witness: the amended theorem applied at the concrete label
"Closed Won". -/
theorem c1_witness :
    (dealStatusFlags "Closed Won").is_open
      = (!(dealStatusFlags "Closed Won").is_won &&
         !(dealStatusFlags "Closed Won").is_lost) ∧
    exactlyOneBool (dealStatusFlags "Closed Won").is_open
      (dealStatusFlags "Closed Won").is_won
      (dealStatusFlags "Closed Won").is_lost = true :=
  c1_amended_exclusivity "Closed Won" (by decide)

/-- C3: weighted_amount is None exactly when the amount or the
probability fails the safe_float coercion; when both coerce, it is
their exact product; and safe_float sends a missing, empty, or
non-numeric value to None. -/
theorem c3_weighted_amount (a p : RawVal) :
    (weighted_amount a p = none ↔ safe_float a = none ∨ safe_float p = none) ∧
    (∀ x y : ℚ, safe_float a = some x → safe_float p = some y →
      weighted_amount a p = some (x * y)) ∧
    (∀ v : RawVal, v = .missing ∨ v = .emptyStr ∨ v = .nonNumeric →
      safe_float v = none) := by
  refine ⟨?_, ?_, ?_⟩
  · cases a <;> cases p <;> simp [weighted_amount, safe_float]
  · intro x y hx hy
    cases a <;> cases p <;> simp_all [weighted_amount, safe_float]
  · rintro v (rfl | rfl | rfl) <;> rfl

/-- C3 witness: the theorem applied at a concrete numeric amount and
probability, and at a missing amount. -/
theorem c3_witness :
    weighted_amount (.numeric 100) (.numeric 2) = some (100 * 2) ∧
    weighted_amount .missing (.numeric 2) = none := by
  refine ⟨(c3_weighted_amount (.numeric 100) (.numeric 2)).2.1 100 2 rfl rfl, ?_⟩
  exact (c3_weighted_amount .missing (.numeric 2)).1.mpr (Or.inl rfl)

/-- A Python datetime value as the source manipulates it: the naive
civil reading encoded as microseconds since 1970-01-01T00:00:00, plus
whether tzinfo is timezone.utc (strptime yields naive values, the
source then attaches UTC explicitly). -/
structure PyDateTime where
  us : Int
  utc : Bool
deriving DecidableEq, Repr

/-- Python str.isdigit for ASCII decimal strings: nonempty and all
characters are decimal digits. -/
def isDigitStr (s : String) : Bool := !s.data.isEmpty && s.data.all Char.isDigit

/-- Numeric value of a list of decimal digit characters (Python int
on a digit string). -/
def digitsVal (ds : List Char) : Nat :=
  ds.foldl (fun n c => 10 * n + (c.toNat - 48)) 0

/-- Gregorian leap-year rule, as validated by the Python datetime
constructor. -/
def isLeapYear (y : Nat) : Bool := y % 4 == 0 && (y % 100 != 0 || y % 400 == 0)

/-- Number of days in a month, as validated by the Python datetime
constructor. -/
def daysInMonth (y m : Nat) : Nat :=
  if m == 2 then (if isLeapYear y then 29 else 28)
  else if m == 4 || m == 6 || m == 9 || m == 11 then 30
  else 31

/-- Days from the civil date (y, m, d) to 1970-01-01 (standard
days-from-civil computation for the proleptic Gregorian calendar). -/
def daysFromCivil (y m d : Nat) : Int :=
  let yi : Int := y
  let mi : Int := m
  let di : Int := d
  let y2 : Int := if mi ≤ 2 then yi - 1 else yi
  let era : Int := Int.fdiv y2 400
  let yoe : Int := y2 - era * 400
  let mp : Int := if mi > 2 then mi - 3 else mi + 9
  let doy : Int := Int.fdiv (153 * mp + 2) 5 + di - 1
  let doe : Int := yoe * 365 + Int.fdiv yoe 4 - Int.fdiv yoe 100 + doy
  era * 146097 + doe - 719468

/-- Microsecond count since the epoch of a naive civil datetime. -/
def naiveUs (y m d h mi s us : Nat) : Int :=
  daysFromCivil y m d * 86400000000
    + ((h * 3600 + mi * 60 + s : Nat) : Int) * 1000000 + (us : Int)

/-- Span of leading decimal digits of a character list, with the
remainder. -/
def spanDigits (cs : List Char) : List Char × List Char :=
  (cs.takeWhile Char.isDigit, cs.dropWhile Char.isDigit)

/-- Consume the strptime directive %Y: exactly four digits. -/
def parseYear (cs : List Char) : Option (Nat × List Char) :=
  let (ds, rest) := spanDigits cs
  if ds.length == 4 then some (digitsVal ds, rest) else none

/-- Consume a one-or-two digit strptime field whose value lies in
[lo, hi] (the %m, %d, %H, %M, %S directives). -/
def parseField (lo hi : Nat) (cs : List Char) : Option (Nat × List Char) :=
  let (ds, rest) := spanDigits cs
  if 1 ≤ ds.length && ds.length ≤ 2 && lo ≤ digitsVal ds && digitsVal ds ≤ hi then
    some (digitsVal ds, rest)
  else none

/-- Consume one expected literal character. -/
def expectChar (c : Char) : List Char → Option (List Char)
  | x :: rest => if x == c then some rest else none
  | [] => none

/-- Consume "%Y-%m-%d" and validate it as the datetime constructor
does (year at least 1, day within the month). -/
def parseDatePart (cs : List Char) : Option ((Nat × Nat × Nat) × List Char) := do
  let (y, r1) ← parseYear cs
  let r2 ← expectChar '-' r1
  let (m, r3) ← parseField 1 12 r2
  let r4 ← expectChar '-' r3
  let (d, r5) ← parseField 1 31 r4
  if 1 ≤ y ∧ d ≤ daysInMonth y m then pure ((y, m, d), r5) else none

/-- Consume "T%H:%M:%S". -/
def parseTimePart (cs : List Char) : Option ((Nat × Nat × Nat) × List Char) := do
  let r0 ← expectChar 'T' cs
  let (h, r1) ← parseField 0 23 r0
  let r2 ← expectChar ':' r1
  let (mi, r3) ← parseField 0 59 r2
  let r4 ← expectChar ':' r3
  let (s, r5) ← parseField 0 59 r4
  pure ((h, mi, s), r5)

/-- Consume ".%f": a dot and one to six fraction digits, right-padded
to microseconds as strptime does. -/
def parseFracPart (cs : List Char) : Option (Nat × List Char) := do
  let r0 ← expectChar '.' cs
  let (ds, rest) := spanDigits r0
  if 1 ≤ ds.length ∧ ds.length ≤ 6 then
    pure (digitsVal ds * 10 ^ (6 - ds.length), rest)
  else none

/-- strptime with format "%Y-%m-%dT%H:%M:%S.%f" (whole input must be
consumed), returning the naive instant in microseconds. -/
def strptimeIsoFrac (str : String) : Option Int := do
  let ((y, m, d), r1) ← parseDatePart str.data
  let ((h, mi, sec), r2) ← parseTimePart r1
  let (us, r3) ← parseFracPart r2
  if r3 = [] then pure (naiveUs y m d h mi sec us) else none

/-- strptime with format "%Y-%m-%dT%H:%M:%S". -/
def strptimeIsoNoFrac (str : String) : Option Int := do
  let ((y, m, d), r1) ← parseDatePart str.data
  let ((h, mi, sec), r2) ← parseTimePart r1
  if r2 = [] then pure (naiveUs y m d h mi sec 0) else none

/-- strptime with format "%Y-%m-%d". -/
def strptimeDateOnly (str : String) : Option Int := do
  let ((y, m, d), r1) ← parseDatePart str.data
  if r1 = [] then pure (naiveUs y m d 0 0 0 0) else none

/-- The candidate format list of `convert_hubspot_timestamp` (main.py
lines 229-235) after the .replace("Z", "") each iteration applies to
the format string: the two Z-suffixed formats collapse onto their
plain counterparts, leaving fractional, plain, fractional, plain,
date-only, in that fixed priority order. -/
def hubspotTimestampFormats : List (String → Option Int) :=
  [strptimeIsoFrac, strptimeIsoNoFrac, strptimeIsoFrac, strptimeIsoNoFrac,
   strptimeDateOnly]

/-- First successful parse over a candidate format list. -/
def firstSuccess (fmts : List (String → Option Int)) (s : String) : Option Int :=
  match fmts with
  | [] => none
  | f :: rest =>
    match f s with
    | some v => some v
    | none => firstSuccess rest s

/-- Replace every non-overlapping occurrence of pat (nonempty) by rep,
left to right, with fuel bounding the scan; models Python str.replace
for the constant patterns the source uses. -/
def replaceListGo (pat rep : List Char) : Nat → List Char → List Char
  | 0, cs => cs
  | fuel + 1, cs =>
    if !pat.isEmpty && pat.isPrefixOf cs then
      rep ++ replaceListGo pat rep fuel (cs.drop pat.length)
    else
      match cs with
      | [] => []
      | c :: rest => c :: replaceListGo pat rep fuel rest

/-- Python str.replace on strings. -/
def pyReplace (s pat rep : String) : String :=
  String.mk (replaceListGo pat.data rep.data s.data.length s.data)

/-- The timezone preprocessing applied before each strptime attempt:
ts = str(timestamp_str).replace("+00:00", "Z").replace("Z", ""). -/
def stripTZ (s : String) : String := pyReplace (pyReplace s "+00:00" "Z") "Z" ""

/-- Latest microsecond instant representable by Python datetime
(9999-12-31T23:59:59.999999 UTC); datetime.fromtimestamp raises
beyond it, which the source converts to None. -/
def MAX_PYDATETIME_US : Int := 253402300799999999

/-- datetime.fromtimestamp(ms / 1000, tz=timezone.utc) on a
non-negative epoch-millisecond count: an aware UTC instant, or None
for an out-of-range value (the OverflowError lands in the catch-all
of the source and becomes None). -/
def fromtimestampUTC (ms : Nat) : Option PyDateTime :=
  let us : Int := (ms : Int) * 1000
  if us ≤ MAX_PYDATETIME_US then some ⟨us, true⟩ else none

/-- Embedding of `convert_hubspot_timestamp` (main.py lines 217-247).
The source returns the isoformat string of the computed aware
datetime; the embedding returns that datetime itself. A falsy input
yields None; a digit string is read as epoch milliseconds; a string
containing "T" or "-" is tried against the fixed format list after
timezone stripping, naive strptime results being tagged UTC via
dt.replace(tzinfo=timezone.utc); anything else yields None. -/
def convert_hubspot_timestamp (x : Option String) : Option PyDateTime :=
  match x with
  | none => none
  | some s =>
    if s = "" then none
    else if isDigitStr s then fromtimestampUTC (digitsVal s.data)
    else if s.data.contains 'T' || s.data.contains '-' then
      match firstSuccess hubspotTimestampFormats (stripTZ s) with
      | some naive => some ⟨naive, true⟩
      | none => none
    else none

/-- Embedding of `parse_timestamp_to_datetime` (main.py lines
250-262): the source re-parses the isoformat string produced by
`convert_hubspot_timestamp` with fromisoformat, an exact round trip,
so the composition equals the converter itself. -/
def parse_timestamp_to_datetime (x : Option String) : Option PyDateTime :=
  convert_hubspot_timestamp x

/-- C6: the normalizer is a total function that returns None on a
falsy input; every non-None result is tagged with an explicit UTC
zone; a pure digit string is interpreted as epoch milliseconds via
fromtimestamp; any other string containing "T" or "-" is resolved by
the first successful parse over the fixed-priority format list after
timezone stripping; any remaining string yields None. -/
theorem c6_timestamp_normalizer :
    convert_hubspot_timestamp none = none ∧
    convert_hubspot_timestamp (some "") = none ∧
    (∀ s dt, convert_hubspot_timestamp (some s) = some dt → dt.utc = true) ∧
    (∀ s, s ≠ "" → isDigitStr s = true →
      convert_hubspot_timestamp (some s) = fromtimestampUTC (digitsVal s.data)) ∧
    (∀ s, s ≠ "" → isDigitStr s = false →
      (s.data.contains 'T' || s.data.contains '-') = true →
      convert_hubspot_timestamp (some s)
        = (firstSuccess hubspotTimestampFormats (stripTZ s)).map
            (fun n => ⟨n, true⟩)) ∧
    (∀ s, isDigitStr s = false →
      (s.data.contains 'T' || s.data.contains '-') = false →
      convert_hubspot_timestamp (some s) = none) := by
  refine ⟨rfl, rfl, ?_, ?_, ?_, ?_⟩
  · intro s dt h
    simp only [convert_hubspot_timestamp] at h
    by_cases hs : s = ""
    · simp [hs] at h
    · rw [if_neg hs] at h
      by_cases hd : isDigitStr s = true
      · simp only [hd, if_true] at h
        unfold fromtimestampUTC at h
        by_cases hle : ((digitsVal s.data : Int) * 1000 ≤ MAX_PYDATETIME_US)
        · simp only [if_pos hle, Option.some.injEq] at h
          rw [← h]
        · simp [if_neg hle] at h
      · simp only [hd, if_false, Bool.false_eq_true] at h
        by_cases hc : (s.data.contains 'T' || s.data.contains '-') = true
        · simp only [hc, if_true] at h
          cases hfs : firstSuccess hubspotTimestampFormats (stripTZ s) with
          | none => rw [hfs] at h; cases h
          | some n =>
            rw [hfs] at h
            cases h
            rfl
        · rw [if_neg hc] at h
          cases h
  · intro s hne hd
    simp only [convert_hubspot_timestamp, if_neg hne, hd, if_true]
  · intro s hne hd hc
    simp only [convert_hubspot_timestamp, if_neg hne, hd, Bool.false_eq_true,
      if_false, hc, if_true]
    cases firstSuccess hubspotTimestampFormats (stripTZ s) <;> rfl
  · intro s hd hc
    by_cases hs : s = ""
    · simp only [convert_hubspot_timestamp, if_pos hs]
    · simp only [convert_hubspot_timestamp, if_neg hs, hd, Bool.false_eq_true,
        if_false, hc]

/-- C6 witness: the theorem applied at concrete inputs, with each
supported format evaluated against a known reference instant
(2021-03-04T05:06:07Z is epoch millisecond 1614834367000). -/
theorem c6_witness :
    convert_hubspot_timestamp (some "1614834367000")
      = fromtimestampUTC (digitsVal "1614834367000".data) ∧
    convert_hubspot_timestamp (some "1614834367000")
      = some ⟨1614834367000000, true⟩ ∧
    convert_hubspot_timestamp (some "2021-03-04T05:06:07.250Z")
      = some ⟨1614834367250000, true⟩ ∧
    convert_hubspot_timestamp (some "2021-03-04T05:06:07")
      = some ⟨1614834367000000, true⟩ ∧
    convert_hubspot_timestamp (some "2021-03-04T05:06:07+00:00")
      = some ⟨1614834367000000, true⟩ ∧
    convert_hubspot_timestamp (some "2021-03-04")
      = some ⟨1614816000000000, true⟩ ∧
    convert_hubspot_timestamp (some "garbage") = none ∧
    (⟨1614834367250000, true⟩ : PyDateTime).utc = true := by
  have h := c6_timestamp_normalizer
  refine ⟨h.2.2.2.1 "1614834367000" (by decide) (by decide), by decide, by decide,
    by decide, by decide, by decide,
    h.2.2.2.2.2 "garbage" (by decide) (by decide),
    h.2.2.1 "2021-03-04T05:06:07.250Z" ⟨1614834367250000, true⟩ (by decide)⟩

/-- Microseconds per day; timedelta.days is the floor of the
microsecond difference over this constant. -/
def usPerDay : Int := 86400000000

/-- Python (later - earlier).days on aware datetimes: floor division
of the difference by one day. -/
def tdDays (laterUs earlierUs : Int) : Int := Int.fdiv (laterUs - earlierUs) usPerDay

/-- days_since_created in `transform_deals` (main.py lines
1069-1071): whole days from createdate to the snapshot instant, None
when createdate does not parse. -/
def computeDaysSinceCreated (snapshotUs : Int) (createdate : Option String) :
    Option Int :=
  match parse_timestamp_to_datetime createdate with
  | some dt => some (tdDays snapshotUs dt.us)
  | none => none

/-- days_in_current_stage in `transform_deals` (main.py lines
1073-1092): for a truthy stage id, look up the per-stage property
"hs_date_entered_" ++ stage id; if present, truthy, and parseable,
take whole days from that instant to the snapshot; otherwise fall
back to days_since_created. -/
def computeDaysInCurrentStage (snapshotUs : Int) (dealstage_id : String)
    (props : String → Option String) (days_since_created : Option Int) :
    Option Int :=
  let viaStage : Option Int :=
    if dealstage_id = "" then none
    else
      match props ("hs_date_entered_" ++ dealstage_id) with
      | none => none
      | some s =>
        if s = "" then none
        else
          match parse_timestamp_to_datetime (some s) with
          | none => none
          | some dt => some (tdDays snapshotUs dt.us)
  match viaStage with
  | some d => some d
  | none => days_since_created

/-- C5: when the per-stage entered-stage timestamp property keyed by
the current stage id is absent or unparseable (including an empty
stage id), days_in_current_stage equals days_since_created; when
present and parseable, it is the whole-day difference between the
snapshot instant and the entered-stage instant. -/
theorem c5_stage_duration (snapshotUs : Int) (dealstage_id : String)
    (props : String → Option String) (dsc : Option Int) :
    (dealstage_id = "" →
      computeDaysInCurrentStage snapshotUs dealstage_id props dsc = dsc) ∧
    (props ("hs_date_entered_" ++ dealstage_id) = none →
      computeDaysInCurrentStage snapshotUs dealstage_id props dsc = dsc) ∧
    (∀ s, props ("hs_date_entered_" ++ dealstage_id) = some s →
      parse_timestamp_to_datetime (some s) = none →
      computeDaysInCurrentStage snapshotUs dealstage_id props dsc = dsc) ∧
    (∀ s dt, dealstage_id ≠ "" →
      props ("hs_date_entered_" ++ dealstage_id) = some s →
      parse_timestamp_to_datetime (some s) = some dt →
      computeDaysInCurrentStage snapshotUs dealstage_id props dsc
        = some (tdDays snapshotUs dt.us)) := by
  refine ⟨?_, ?_, ?_, ?_⟩
  · intro hid
    simp only [computeDaysInCurrentStage, if_pos hid]
  · intro hp
    by_cases hid : dealstage_id = ""
    · simp only [computeDaysInCurrentStage, if_pos hid]
    · simp only [computeDaysInCurrentStage, if_neg hid, hp]
  · intro s hp hparse
    by_cases hid : dealstage_id = ""
    · simp only [computeDaysInCurrentStage, if_pos hid]
    · by_cases hs : s = ""
      · simp only [computeDaysInCurrentStage, if_neg hid, hp, if_pos hs]
      · simp only [computeDaysInCurrentStage, if_neg hid, hp, if_neg hs, hparse]
  · intro s dt hid hp hparse
    have hs : s ≠ "" := by
      intro hs
      rw [hs] at hparse
      exact Option.noConfusion hparse
    simp only [computeDaysInCurrentStage, if_neg hid, hp, if_neg hs, hparse]

/-- C5 witness: the theorem applied with a concrete property map; the
stage-entry timestamp 1614834367000 combined with the snapshot
instant 1615000000000000 microseconds yields one whole day, and an
empty stage id falls back to days_since_created. -/
theorem c5_witness :
    computeDaysInCurrentStage 1615000000000000 "stage7"
      (fun k => if k = "hs_date_entered_stage7" then some "1614834367000" else none)
      (some 99)
      = some (tdDays 1615000000000000 1614834367000000) ∧
    tdDays 1615000000000000 1614834367000000 = 1 ∧
    computeDaysInCurrentStage 1615000000000000 ""
      (fun k => if k = "hs_date_entered_stage7" then some "1614834367000" else none)
      (some 99)
      = some 99 := by
  refine ⟨(c5_stage_duration 1615000000000000 "stage7" _ (some 99)).2.2.2
      "1614834367000" ⟨1614834367000000, true⟩ (by decide) (by decide) (by decide),
    by decide,
    (c5_stage_duration 1615000000000000 "" _ (some 99)).1 rfl⟩

/-- Embedding of `calculate_deal_age_status` (main.py lines 941-996):
classify by case-insensitive keyword containment, first matching
branch wins, then compare the day count against that branch's
thresholds with <= comparisons. -/
def calculate_deal_age_status (days_in_stage : Option Int) (dealstage : String) :
    String :=
  match days_in_stage with
  | none => "Unknown"
  | some d =>
    let stage_lower := pyLower dealstage
    if pyIn "stalled" stage_lower || pyIn "delayed" stage_lower then
      if d ≤ 14 then "Yellow" else "Red"
    else if pyIn "nbm" stage_lower || pyIn "discovery" stage_lower ||
        pyIn "qualification" stage_lower || pyIn "prospecting" stage_lower ||
        pyIn "lead" stage_lower || pyIn "scheduled" stage_lower then
      if d ≤ 14 then "Green" else if d ≤ 30 then "Yellow" else "Red"
    else if pyIn "technical" stage_lower || pyIn "evaluation" stage_lower ||
        pyIn "demo" stage_lower || pyIn "proposal" stage_lower then
      if d ≤ 30 then "Green" else if d ≤ 45 then "Yellow" else "Red"
    else if pyIn "negotiation" stage_lower || pyIn "contract" stage_lower ||
        pyIn "closing" stage_lower || pyIn "final" stage_lower then
      if d ≤ 45 then "Green" else if d ≤ 60 then "Yellow" else "Red"
    else
      if d ≤ 21 then "Green" else if d ≤ 45 then "Yellow" else "Red"

/-- The five stage-label buckets of the age-status classifier. -/
inductive StageBucket where
  | stalled
  | early
  | mid
  | late
  | unknown
deriving DecidableEq, Repr

/-- Bucket selection by the keyword chain of
`calculate_deal_age_status`, first match wins. -/
def bucketOf (label : String) : StageBucket :=
  let l := pyLower label
  if pyIn "stalled" l || pyIn "delayed" l then .stalled
  else if pyIn "nbm" l || pyIn "discovery" l || pyIn "qualification" l ||
      pyIn "prospecting" l || pyIn "lead" l || pyIn "scheduled" l then .early
  else if pyIn "technical" l || pyIn "evaluation" l || pyIn "demo" l ||
      pyIn "proposal" l then .mid
  else if pyIn "negotiation" l || pyIn "contract" l || pyIn "closing" l ||
      pyIn "final" l then .late
  else .unknown

/-- Day count at most an optional bound, where None means no bound
(the infinite boundary of the claim). -/
def leOpt (d : Int) : Option Int → Bool
  | some b => d ≤ b
  | none => true

/-- Apply a Green/Yellow boundary pair: Green up to the first bound,
Yellow up to the second, Red beyond. -/
def applyPair (p : Option Int × Option Int) (d : Int) : String :=
  if leOpt d p.1 then "Green" else if leOpt d p.2 then "Yellow" else "Red"

/-- Modelled from the claim text: the Green/Yellow boundary pair per
bucket, reading "stalled/delayed 14/(infinite)" as Green up to 14 and
Yellow beyond. -/
def claimPair : StageBucket → Option Int × Option Int
  | .stalled => (some 14, none)
  | .early => (some 14, some 30)
  | .mid => (some 30, some 45)
  | .late => (some 45, some 60)
  | .unknown => (some 21, some 45)

/-- Modelled from the claim text: the age-status classifier as the
claim describes it, bucketing then applying that bucket's pair. -/
def claimAgeStatus (days : Option Int) (label : String) : String :=
  match days with
  | none => "Unknown"
  | some d => applyPair (claimPair (bucketOf label)) d

/-- The amended classifier: identical to the claim's table except
that the stalled/delayed bucket has no Green tier at all — at most 14
days yields Yellow and anything beyond yields Red. -/
def amendedAgeStatus (days : Option Int) (label : String) : String :=
  match days with
  | none => "Unknown"
  | some d =>
    match bucketOf label with
    | .stalled => if d ≤ 14 then "Yellow" else "Red"
    | .early => applyPair (some 14, some 30) d
    | .mid => applyPair (some 30, some 45) d
    | .late => applyPair (some 45, some 60) d
    | .unknown => applyPair (some 21, some 45) d

/-- C4 counterexample: at 10 days in a "stalled" stage the claim's
boundary pair for the stalled/delayed bucket (14/infinite, read as a
Green/Yellow pair) yields Green, but the code yields Yellow — the
stalled/delayed bucket never produces Green. -/
theorem c4_counterexample :
    calculate_deal_age_status (some 10) "stalled" = "Yellow" ∧
    claimAgeStatus (some 10) "stalled" = "Green" ∧
    ("Yellow" : String) ≠ "Green" := by
  refine ⟨by decide, by decide, by decide⟩

/-- C4 (amended): the classifier buckets the stage label by
case-insensitive substring into stalled/delayed, early, mid, late or
unknown and applies that bucket's boundary pair with <= comparisons
(ties to the healthier colour), where early is 14/30, mid 30/45,
late 45/60, unknown 21/45, and stalled/delayed has no Green tier
(Yellow up to 14, then Red); in particular a mid-stage label at
30/31/45/46 days yields Green/Yellow/Yellow/Red. -/
theorem c4_amended_age_status (days : Option Int) (label : String) :
    calculate_deal_age_status days label = amendedAgeStatus days label ∧
    calculate_deal_age_status (some 30) "Demo" = "Green" ∧
    calculate_deal_age_status (some 31) "Demo" = "Yellow" ∧
    calculate_deal_age_status (some 45) "Demo" = "Yellow" ∧
    calculate_deal_age_status (some 46) "Demo" = "Red" := by
  refine ⟨?_, by decide, by decide, by decide, by decide⟩
  cases days with
  | none => rfl
  | some d =>
    simp only [calculate_deal_age_status, amendedAgeStatus, bucketOf]
    by_cases h1 : (pyIn "stalled" (pyLower label) ||
        pyIn "delayed" (pyLower label)) = true
    · simp only [h1, if_true]
    · simp only [if_neg h1]
      by_cases h2 : (pyIn "nbm" (pyLower label) ||
          pyIn "discovery" (pyLower label) ||
          pyIn "qualification" (pyLower label) ||
          pyIn "prospecting" (pyLower label) ||
          pyIn "lead" (pyLower label) || pyIn "scheduled" (pyLower label)) = true
      · simp only [h2, if_true, applyPair, leOpt, decide_eq_true_eq]
      · simp only [if_neg h2]
        by_cases h3 : (pyIn "technical" (pyLower label) ||
            pyIn "evaluation" (pyLower label) || pyIn "demo" (pyLower label) ||
            pyIn "proposal" (pyLower label)) = true
        · simp only [h3, if_true, applyPair, leOpt, decide_eq_true_eq]
        · simp only [if_neg h3]
          by_cases h4 : (pyIn "negotiation" (pyLower label) ||
              pyIn "contract" (pyLower label) || pyIn "closing" (pyLower label) ||
              pyIn "final" (pyLower label)) = true
          · simp only [h4, if_true, applyPair, leOpt, decide_eq_true_eq]
          · simp only [if_neg h4, applyPair, leOpt, decide_eq_true_eq]

/-- One destination-table row as the loader sees it: the partition
key plus an opaque payload standing for all remaining columns. -/
structure BQRow where
  snapshot_date : String
  payload : String
deriving DecidableEq, Repr

/-- Embedding of `load_to_bigquery` (main.py lines 1227-1268): an
empty frame is a no-op returning 0 rows written; otherwise every
existing row whose snapshot_date equals the first row's snapshot_date
is deleted and the new rows are appended, returning the number of
appended rows. The destination table is the row list. -/
def load_to_bigquery (table df : List BQRow) : List BQRow × Nat :=
  match df with
  | [] => (table, 0)
  | r :: _ =>
    ((table.filter fun x => x.snapshot_date != r.snapshot_date) ++ df, df.length)

/-- C2: loading the same single-date duplicate-free row-set twice
leaves the date's partition equal to exactly that row-set — each row
appears exactly once in the final table — and the second load leaves
the table unchanged (idempotence). -/
theorem c2_idempotent_reload (table rows : List BQRow) (d : String)
    (hne : rows ≠ []) (hd : ∀ r ∈ rows, r.snapshot_date = d)
    (hnd : rows.Nodup) :
    ((load_to_bigquery (load_to_bigquery table rows).1 rows).1.filter
        (fun r => r.snapshot_date == d)) = rows ∧
    (∀ r ∈ rows,
      (load_to_bigquery (load_to_bigquery table rows).1 rows).1.count r = 1) ∧
    (load_to_bigquery (load_to_bigquery table rows).1 rows).1
      = (load_to_bigquery table rows).1 := by
  cases rows with
  | nil => exact absurd rfl hne
  | cons r0 rs =>
    have hr0 : r0.snapshot_date = d := hd r0 (List.mem_cons_self r0 rs)
    simp only [load_to_bigquery]
    have hfilterP : ∀ l : List BQRow,
        ((l.filter fun x => x.snapshot_date != r0.snapshot_date).filter
          fun x => x.snapshot_date != r0.snapshot_date)
          = l.filter fun x => x.snapshot_date != r0.snapshot_date := by
      intro l
      refine List.filter_eq_self.mpr ?_
      intro a ha
      exact (List.mem_filter.mp ha).2
    have hrowsP : ((r0 :: rs).filter fun x => x.snapshot_date != r0.snapshot_date)
        = [] := by
      refine List.filter_eq_nil_iff.mpr ?_
      intro a ha
      have := hd a ha
      simp [this, hr0]
    have hidem :
        (((table.filter fun x => x.snapshot_date != r0.snapshot_date)
            ++ r0 :: rs).filter fun x => x.snapshot_date != r0.snapshot_date)
          ++ r0 :: rs
        = (table.filter fun x => x.snapshot_date != r0.snapshot_date)
          ++ r0 :: rs := by
      rw [List.filter_append, hfilterP, hrowsP, List.append_nil]
    refine ⟨?_, ?_, hidem⟩
    · rw [hidem, List.filter_append]
      have h1 : ((table.filter fun x => x.snapshot_date != r0.snapshot_date).filter
          fun r => r.snapshot_date == d) = [] := by
        refine List.filter_eq_nil_iff.mpr ?_
        intro a ha
        have hmem := (List.mem_filter.mp ha).2
        rw [hr0] at hmem
        simp only [bne_iff_ne, ne_eq] at hmem
        simp [hmem]
      have h2 : ((r0 :: rs).filter fun r => r.snapshot_date == d) = r0 :: rs := by
        refine List.filter_eq_self.mpr ?_
        intro a ha
        simp [hd a ha]
      rw [h1, h2, List.nil_append]
    · intro r hrmem
      rw [hidem, List.count_append]
      have hcount0 :
          (table.filter fun x => x.snapshot_date != r0.snapshot_date).count r
            = 0 := by
        refine List.count_eq_zero.mpr ?_
        intro hmem
        have := (List.mem_filter.mp hmem).2
        rw [hd r hrmem, hr0] at this
        simp at this
      rw [hcount0, List.count_eq_one_of_mem hnd hrmem]

/-- C2 witness: the theorem applied to a concrete table that already
holds a stale copy for the day and an older day's row, with a
two-row batch. -/
theorem c2_witness :
    ((load_to_bigquery
        (load_to_bigquery
          [⟨"2021-03-03", "old"⟩, ⟨"2021-03-04", "stale"⟩]
          [⟨"2021-03-04", "r1"⟩, ⟨"2021-03-04", "r2"⟩]).1
        [⟨"2021-03-04", "r1"⟩, ⟨"2021-03-04", "r2"⟩]).1.filter
      (fun r => r.snapshot_date == "2021-03-04"))
      = [⟨"2021-03-04", "r1"⟩, ⟨"2021-03-04", "r2"⟩] ∧
    (load_to_bigquery
        (load_to_bigquery
          [⟨"2021-03-03", "old"⟩, ⟨"2021-03-04", "stale"⟩]
          [⟨"2021-03-04", "r1"⟩, ⟨"2021-03-04", "r2"⟩]).1
        [⟨"2021-03-04", "r1"⟩, ⟨"2021-03-04", "r2"⟩]).1.count
      ⟨"2021-03-04", "r1"⟩ = 1 := by
  have h := c2_idempotent_reload
    [⟨"2021-03-03", "old"⟩, ⟨"2021-03-04", "stale"⟩]
    [⟨"2021-03-04", "r1"⟩, ⟨"2021-03-04", "r2"⟩] "2021-03-04"
    (by decide) (by decide) (by decide)
  exact ⟨h.1, h.2.1 ⟨"2021-03-04", "r1"⟩ (by decide)⟩

/-- A raw deal as returned by one page of the deals listing: its id
and its "pipeline" property (absent when the deal carries none). -/
structure RawDeal where
  id : String
  pipeline : Option String
deriving DecidableEq, Repr

/-- Response of one get_page call in `fetch_all_deals`: a page of
results with an optional next cursor, a 429 rate-limit error, a
non-429 DealsApiException, or any other exception. -/
inductive PageResp where
  | ok (results : List RawDeal) (next : Option String)
  | rateLimited
  | apiError
  | otherError
deriving Repr

/-- Outcome of a `fetch_all_deals` run: normal return with the
accumulated deals, a propagated exception (no partial result), or
fuel exhaustion of the embedding (the source loop still running). -/
inductive FetchResult where
  | done (deals : List RawDeal) (waits : List Nat)
  | raised (waits : List Nat)
  | outOfFuel
deriving DecidableEq, Repr

/-- Whether a fetch outcome is a propagated exception. -/
def FetchResult.isRaised : FetchResult → Bool
  | .raised _ => true
  | _ => false

/-- The wait inserted after the n-th consecutive rate-limit error on
a page (main.py line 616): min(60, 10 * 2 ** retry_count) seconds,
with retry_count already incremented. -/
def rateLimitWait (retry_count : Nat) : Nat := min 60 (10 * 2 ^ retry_count)

/-- Client-side pipeline filter applied to each fetched page
(main.py lines 598-599); no filter when no target id was resolved. -/
def pageFilter (target : Option String) (results : List RawDeal) : List RawDeal :=
  match target with
  | some tid => results.filter (fun d => d.pipeline == some tid)
  | none => results

/-- Embedding of the nested retry/pagination loops of
`fetch_all_deals` (main.py lines 583-633), driven by a response
script indexed by call count and bounded by fuel. State: call index,
cursor, accumulated deals, retry_count, and the sleep log. A 429
increments retry_count and sleeps the capped exponential wait; a
non-429 error raises once retry_count reaches max_retries = 5 and
otherwise sleeps 5s; when retry_count reaches 5 without a raise
(only possible through 429s) the inner loop exits and the outer loop
resets retry_count and tries the same cursor again. -/
def fetchDealsGo (api : Nat → PageResp) (target : Option String) :
    Nat → Nat → Option String → List RawDeal → Nat → List Nat → FetchResult
  | 0, _, _, _, _, _ => .outOfFuel
  | fuel + 1, callIdx, after, acc, retryCount, waits =>
    if retryCount < 5 then
      match api callIdx with
      | .ok results next =>
        let acc2 := acc ++ pageFilter target results
        match next with
        | some a => fetchDealsGo api target fuel (callIdx + 1) (some a) acc2 0 waits
        | none => .done acc2 waits
      | .rateLimited =>
        fetchDealsGo api target fuel (callIdx + 1) after acc (retryCount + 1)
          (waits ++ [rateLimitWait (retryCount + 1)])
      | .apiError =>
        if 5 ≤ retryCount + 1 then .raised waits
        else fetchDealsGo api target fuel (callIdx + 1) after acc (retryCount + 1)
          (waits ++ [5])
      | .otherError =>
        if 5 ≤ retryCount + 1 then .raised waits
        else fetchDealsGo api target fuel (callIdx + 1) after acc (retryCount + 1)
          (waits ++ [5])
    else
      fetchDealsGo api target fuel callIdx after acc 0 waits

/-- `fetch_all_deals` from its initial state. -/
def fetch_all_deals (api : Nat → PageResp) (target : Option String)
    (fuel : Nat) : FetchResult :=
  fetchDealsGo api target fuel 0 none [] 0 []

/-- C7 counterexample: against a source that rate-limits every call,
twenty attempts (four times the five-attempt ceiling) complete
without any terminal raise — the run is still retrying, because a
429 never raises and exhausting the inner loop only resets the retry
counter. The claim that rate-limit errors raise a terminal fetch
error at the ceiling is false. -/
theorem c7_counterexample :
    fetch_all_deals (fun _ => PageResp.rateLimited) none 20
      = FetchResult.outOfFuel ∧
    (fetch_all_deals (fun _ => PageResp.rateLimited) none 20).isRaised
      = false := by
  refine ⟨by decide, by decide⟩

/-- C7 (amended): each rate-limit wait is the capped exponential
min(60, 10 * 2 ^ n) — bounded by 60 seconds and doubling up to the
cap; a page failing with non-rate-limit errors raises a terminal
fetch error after the five-attempt ceiling, losing nothing but the
partial accumulation; but rate-limit errors never raise, for any
fuel: the fetcher retries them indefinitely. -/
theorem c7_amended_retry_policy :
    (∀ n, rateLimitWait n ≤ 60 ∧
      rateLimitWait (n + 1) = min 60 (2 * rateLimitWait n)) ∧
    fetch_all_deals (fun _ => PageResp.apiError) none 5
      = FetchResult.raised [5, 5, 5, 5] ∧
    (∀ target fuel callIdx after acc rc ws,
      (fetchDealsGo (fun _ => PageResp.rateLimited) target fuel callIdx after
        acc rc ws).isRaised = false) := by
  refine ⟨?_, by decide, ?_⟩
  · intro n
    constructor
    · exact min_le_left 60 _
    · have hx : 10 * 2 ^ (n + 1) = 2 * (10 * 2 ^ n) := by ring
      rw [rateLimitWait, rateLimitWait, hx]
      by_cases hle : 10 * 2 ^ n ≤ 60
      · rw [min_eq_right hle]
      · push_neg at hle
        rw [min_eq_left (show (60 : ℕ) ≤ 10 * 2 ^ n by omega)]
        rw [min_eq_left (show (60 : ℕ) ≤ 2 * (10 * 2 ^ n) by omega)]
        rw [min_eq_left (show (60 : ℕ) ≤ 2 * 60 by omega)]
  · intro target fuel callIdx after acc rc ws
    induction fuel generalizing callIdx after acc rc ws with
    | zero => rfl
    | succ n ih =>
      simp only [fetchDealsGo]
      by_cases h : rc < 5
      · rw [if_pos h]
        exact ih (callIdx + 1) after acc (rc + 1) (ws ++ [rateLimitWait (rc + 1)])
      · rw [if_neg h]
        exact ih callIdx after acc 0 ws

/-- One hydrated contact record (payload abstracted to the id). -/
structure Contact where
  id : String
deriving DecidableEq, Repr

/-- Outcome of one crm.contacts.basic_api.get_by_id attempt in
`fetch_associated_contacts`: success, a ContactsApiException with
status 403, a ContactsApiException with any other status, a
ConnectionError/TimeoutError/OSError, a generic exception whose
message marks it as an SSL/EOF/connection problem, or any other
exception. -/
inductive ContactCallResult where
  | ok (c : Contact)
  | apiErr403
  | apiErrOther
  | netErr
  | connStrErr
  | otherErr
deriving Repr

/-- Result of one contact id's retry loop: the hydrated contact if
any, the number of get attempts made, and the backoff sleeps
performed. -/
structure ContactFetchTrace where
  result : Option Contact
  attempts : Nat
  waits : List Nat
deriving DecidableEq, Repr

/-- Embedding of the per-contact retry loop of
`fetch_associated_contacts` (main.py lines 443-490): up to three
attempts; success and both ContactsApiException cases leave the loop
at once (403 is logged as a permission error, neither is retried);
network and connection-string errors sleep 2 ^ attempt seconds and
retry while attempts remain; any other exception leaves the loop at
once. The first argument scripts the outcome of each attempt. -/
def fetchContactLoop (script : Nat → ContactCallResult) :
    Nat → Nat → List Nat → ContactFetchTrace
  | 0, attempt, ws => ⟨none, attempt, ws⟩
  | remaining + 1, attempt, ws =>
    match script attempt with
    | .ok c => ⟨some c, attempt + 1, ws⟩
    | .apiErr403 => ⟨none, attempt + 1, ws⟩
    | .apiErrOther => ⟨none, attempt + 1, ws⟩
    | .netErr =>
      if attempt < 2 then
        fetchContactLoop script remaining (attempt + 1) (ws ++ [2 ^ attempt])
      else ⟨none, attempt + 1, ws⟩
    | .connStrErr =>
      if attempt < 2 then
        fetchContactLoop script remaining (attempt + 1) (ws ++ [2 ^ attempt])
      else ⟨none, attempt + 1, ws⟩
    | .otherErr => ⟨none, attempt + 1, ws⟩

/-- One contact id's hydration, from the initial loop state
(max_retries = 3). -/
def fetch_contact (script : Nat → ContactCallResult) : ContactFetchTrace :=
  fetchContactLoop script 3 0 []

/-- Embedding of `fetch_associated_contacts` (main.py lines 406-517)
after the association listing resolved: None models a listing that
failed or found nothing (the source returns the empty accumulator);
otherwise each listed contact id is hydrated independently through
its own retry loop and the successes are collected in order. -/
def fetch_associated_contacts (listing : Option (List String))
    (scripts : String → Nat → ContactCallResult) : List Contact :=
  match listing with
  | none => []
  | some ids => ids.filterMap (fun cid => (fetch_contact (scripts cid)).result)

/-- C8: a 403 permission failure ends a contact id after exactly one
attempt with no backoff; a transient failure is retried with
exponential backoff (1s then 2s) up to the three-attempt ceiling,
succeeding if a later attempt succeeds and being skipped otherwise;
any other error ends the id after one attempt; the batch result is
the independent per-id collection, so no per-id failure affects the
other ids, an all-failing batch yields the empty list, and a failed
listing yields the empty list — the function always returns a list. -/
theorem c8_association_resilience :
    (∀ script, script 0 = ContactCallResult.apiErr403 →
      fetch_contact script = ⟨none, 1, []⟩) ∧
    (∀ script c, script 0 = ContactCallResult.netErr →
      script 1 = ContactCallResult.netErr → script 2 = ContactCallResult.ok c →
      fetch_contact script = ⟨some c, 3, [1, 2]⟩) ∧
    (∀ script, script 0 = ContactCallResult.netErr →
      script 1 = ContactCallResult.netErr →
      script 2 = ContactCallResult.netErr →
      fetch_contact script = ⟨none, 3, [1, 2]⟩) ∧
    (∀ script, script 0 = ContactCallResult.otherErr →
      fetch_contact script = ⟨none, 1, []⟩) ∧
    (∀ ids scripts, fetch_associated_contacts (some ids) scripts
      = ids.filterMap (fun cid => (fetch_contact (scripts cid)).result)) ∧
    (∀ ids scripts,
      (∀ cid ∈ ids, (fetch_contact (scripts cid)).result = none) →
      fetch_associated_contacts (some ids) scripts = []) ∧
    (∀ ids1 badId ids2 scripts,
      fetch_associated_contacts (some (ids1 ++ badId :: ids2)) scripts
        = fetch_associated_contacts (some ids1) scripts
          ++ ((fetch_contact (scripts badId)).result).toList
          ++ fetch_associated_contacts (some ids2) scripts) ∧
    (∀ scripts, fetch_associated_contacts none scripts = []) := by
  refine ⟨?_, ?_, ?_, ?_, ?_, ?_, ?_, ?_⟩
  · intro script h
    simp [fetch_contact, fetchContactLoop, h]
  · intro script c h0 h1 h2
    simp [fetch_contact, fetchContactLoop, h0, h1, h2]
  · intro script h0 h1 h2
    simp [fetch_contact, fetchContactLoop, h0, h1, h2]
  · intro script h
    simp [fetch_contact, fetchContactLoop, h]
  · intro ids scripts
    rfl
  · intro ids scripts hall
    exact List.filterMap_eq_nil_iff.mpr hall
  · intro ids1 badId ids2 scripts
    cases hf : (fetch_contact (scripts badId)).result <;>
      simp [fetch_associated_contacts, List.filterMap_append,
        List.filterMap_cons, hf]
  · intro scripts
    rfl

/-- C8 witness: the theorem applied to a script that always answers
403 (one attempt, no retry), to one that fails twice with network
errors then succeeds (three attempts, backoff 1s and 2s), and to a
two-id batch whose hydrations all fail (empty list). -/
theorem c8_witness :
    fetch_contact (fun _ => ContactCallResult.apiErr403)
      = ⟨none, 1, []⟩ ∧
    fetch_contact
        (fun n => if n < 2 then ContactCallResult.netErr
          else ContactCallResult.ok ⟨"c1"⟩)
      = ⟨some ⟨"c1"⟩, 3, [1, 2]⟩ ∧
    fetch_associated_contacts (some ["a", "b"])
        (fun _ _ => ContactCallResult.netErr) = [] := by
  obtain ⟨h1, h2, _, _, _, h6, _, _⟩ := c8_association_resilience
  refine ⟨h1 _ rfl, h2 _ ⟨"c1"⟩ rfl rfl rfl, h6 _ _ ?_⟩
  intro cid _
  rfl

/-- One stage of a pipeline as listed by the pipelines API. -/
structure StageRec where
  id : String
  label : String
deriving DecidableEq, Repr

/-- One pipeline as listed by the pipelines API. -/
structure PipelineRec where
  id : String
  label : String
  stages : List StageRec
deriving DecidableEq, Repr

/-- The configured target pipeline label (main.py line 58). -/
def TARGET_PIPELINE_NAME : String := "3PL New Business"

/-- Value stored in stages_dict for one stage id. -/
structure StageInfo where
  label : String
  pipeline_id : String
  order : Nat
deriving DecidableEq, Repr

/-- Value stored in pipelines_dict for one pipeline id. -/
structure PipelineInfo where
  label : String
  stages : List (String × String)
  stage_order : List (String × Nat)
deriving DecidableEq, Repr

/-- Python dict assignment on an association list: overwrite the
existing key or append a new entry. -/
def dictInsert {v : Type} (m : List (String × v)) (key : String) (val : v) :
    List (String × v) :=
  if m.any (fun p => p.1 == key) then
    m.map (fun p => if p.1 == key then (key, val) else p)
  else m ++ [(key, val)]

/-- The stage id to label dict built per pipeline. -/
def stagesMap (stages : List StageRec) : List (String × String) :=
  stages.foldl (fun m st => dictInsert m st.id st.label) []

/-- The stage id to declaration-index dict built per pipeline
(enumerate in the source). -/
def stageOrderMap (stages : List StageRec) : List (String × Nat) :=
  stages.enum.foldl (fun m p => dictInsert m p.2.id p.1) []

/-- Insertion of one pipeline's stages into the flattened
stages_dict. -/
def insertStagesDict (sd : List (String × StageInfo)) (pid : String)
    (stages : List StageRec) : List (String × StageInfo) :=
  stages.enum.foldl (fun m p => dictInsert m p.2.id ⟨p.2.label, pid, p.1⟩) sd

/-- The pipeline loop of `fetch_pipelines` (main.py lines 303-327):
builds pipelines_dict and stages_dict and records the id of any
pipeline whose label equals the target name (a later match
overwrites an earlier one, as repeated assignment does). -/
def fetchPipelinesGo : List PipelineRec → List (String × PipelineInfo) →
    List (String × StageInfo) → Option String →
    List (String × PipelineInfo) × List (String × StageInfo) × Option String
  | [], pd, sd, t => (pd, sd, t)
  | p :: rest, pd, sd, t =>
    let t2 := if p.label == TARGET_PIPELINE_NAME then some p.id else t
    let pd2 := dictInsert pd p.id ⟨p.label, stagesMap p.stages, stageOrderMap p.stages⟩
    let sd2 := insertStagesDict sd p.id p.stages
    fetchPipelinesGo rest pd2 sd2 t2

/-- Return value of `fetch_pipelines`, plus the content of the
"target pipeline not found" warning when it is emitted (the list of
available pipeline labels). -/
structure PipelinesResult where
  pipelines_dict : List (String × PipelineInfo)
  stages_dict : List (String × StageInfo)
  target_pipeline_id : Option String
  warnedAvailable : Option (List String)
deriving DecidableEq, Repr

/-- Embedding of `fetch_pipelines` (main.py lines 293-338): any
exception from the listing call is swallowed and yields empty dicts
with a null target id; otherwise the dicts are built and, when no
label matched the target name, a warning listing the available
labels is logged and the target id stays null. -/
def fetch_pipelines (resp : Except Unit (List PipelineRec)) : PipelinesResult :=
  match resp with
  | .error _ => ⟨[], [], none, none⟩
  | .ok results =>
    let r := fetchPipelinesGo results [] [] none
    ⟨r.1, r.2.1, r.2.2,
      if r.2.2 = none then some (r.1.map (fun p => p.2.label)) else none⟩

/-- Embedding of the label resolution in `transform_deals` (main.py
lines 1026-1038): labels default to the empty string; a truthy
pipeline id present in pipelines_dict supplies the pipeline label and
possibly the stage label; a still-empty stage label falls back to
the flattened stages_dict. -/
def resolveLabels (pipelines_dict : List (String × PipelineInfo))
    (stages_dict : List (String × StageInfo))
    (pipeline_id dealstage_id : String) : String × String :=
  let first : String × String :=
    if pipeline_id = "" then ("", "")
    else
      match pipelines_dict.lookup pipeline_id with
      | some info =>
        (info.label,
          match info.stages.lookup dealstage_id with
          | some l => l
          | none => "")
      | none => ("", "")
  let dealstage_label :=
    if first.2 = "" then
      match stages_dict.lookup dealstage_id with
      | some si => si.label
      | none => first.2
    else first.2
  (first.1, dealstage_label)

/-- The structured run result of `hubspot_to_bigquery_etl`, reduced
to the fields the claims constrain. -/
structure EtlResult where
  status : String
  deals_extracted : Nat
  rows_loaded : Nat
deriving DecidableEq, Repr

/-- An api script serving one fixed page with no next cursor. -/
def onePageApi (deals : List RawDeal) : Nat → PageResp :=
  fun _ => PageResp.ok deals none

/-- Embedding of the deal path of `hubspot_to_bigquery_etl` (main.py
lines 1336-1355, 1402-1410): resolve the target pipeline id, fetch
all deals with it, and return the zero-deals success result when the
fetch is empty; otherwise transform and load every fetched deal (one
row per deal, all rows written). An exception propagating out of the
fetch is caught at the top level and produces a status-error result;
the row counters of that branch are not part of the source dict and
are modelled as zero. -/
def etl_run (pipelinesResp : Except Unit (List PipelineRec))
    (api : Nat → PageResp) (fuel : Nat) : Option EtlResult :=
  let pr := fetch_pipelines pipelinesResp
  match fetch_all_deals api pr.target_pipeline_id fuel with
  | .done deals _ =>
    if deals.isEmpty then some ⟨"success", 0, 0⟩
    else some ⟨"success", deals.length, deals.length⟩
  | .raised _ => some ⟨"error", 0, 0⟩
  | .outOfFuel => none

/-- C9 counterexample: when no pipeline label matches the target
name but the unfiltered fetch returns one deal, the run processes
and loads that deal — deals_extracted is 1, not the claimed
zero-deals result. The loader does return a null target id. -/
theorem c9_counterexample :
    (fetch_pipelines (Except.ok [⟨"p1", "Other Pipeline", []⟩])).target_pipeline_id
      = none ∧
    etl_run (Except.ok [⟨"p1", "Other Pipeline", []⟩])
        (onePageApi [⟨"d1", some "p1"⟩]) 2
      = some ⟨"success", 1, 1⟩ ∧
    some (⟨"success", 1, 1⟩ : EtlResult) ≠ some (⟨"success", 0, 0⟩ : EtlResult) := by
  refine ⟨by decide, by decide, by decide⟩

/-- C9 (amended): when no pipeline label matches the configured
target name, the loader returns a null target id and logs a warning
listing the available labels; the run then proceeds with no pipeline
filter, and only when that unfiltered fetch yields zero deals does
it return the structured zero-deals success-shaped result (status
success, zero extracted, zero loaded) rather than an error. -/
theorem c9_amended_pipeline_not_found (recs : List PipelineRec)
    (api : Nat → PageResp) (fuel : Nat) (ws : List Nat)
    (hnomatch : ∀ p ∈ recs, p.label ≠ TARGET_PIPELINE_NAME) :
    (fetch_pipelines (Except.ok recs)).target_pipeline_id = none ∧
    (fetch_pipelines (Except.ok recs)).warnedAvailable
      = some ((fetch_pipelines (Except.ok recs)).pipelines_dict.map
          (fun p => p.2.label)) ∧
    (fetch_all_deals api none fuel = FetchResult.done [] ws →
      etl_run (Except.ok recs) api fuel = some ⟨"success", 0, 0⟩) := by
  have key : ∀ (l : List PipelineRec) pd sd t,
      (∀ p ∈ l, p.label ≠ TARGET_PIPELINE_NAME) →
      (fetchPipelinesGo l pd sd t).2.2 = t := by
    intro l
    induction l with
    | nil => intro pd sd t _; rfl
    | cons p rest ih =>
      intro pd sd t hno
      have hpl : (p.label == TARGET_PIPELINE_NAME) = false :=
        beq_eq_false_iff_ne.mpr (hno p (List.mem_cons_self p rest))
      simp only [fetchPipelinesGo, hpl, if_false, Bool.false_eq_true]
      exact ih _ _ _ (fun q hq => hno q (List.mem_cons_of_mem p hq))
  have ht : (fetchPipelinesGo recs [] [] none).2.2 = none :=
    key recs [] [] none hnomatch
  have htarget : (fetch_pipelines (Except.ok recs)).target_pipeline_id = none := ht
  refine ⟨htarget, ?_, ?_⟩
  · have hw : (fetch_pipelines (Except.ok recs)).warnedAvailable
        = if (fetchPipelinesGo recs [] [] none).2.2 = none then
            some ((fetchPipelinesGo recs [] [] none).1.map (fun p => p.2.label))
          else none := rfl
    rw [hw, if_pos ht]
    rfl
  · intro hdone
    simp only [etl_run, htarget, hdone]
    rfl

/-- C9 witness: the amended theorem applied to a single pipeline
labelled "Alpha" and an api returning an empty page. -/
theorem c9_witness :
    (fetch_pipelines (Except.ok [⟨"p1", "Alpha", []⟩])).target_pipeline_id
      = none ∧
    (fetch_pipelines (Except.ok [⟨"p1", "Alpha", []⟩])).warnedAvailable
      = some ["Alpha"] ∧
    etl_run (Except.ok [⟨"p1", "Alpha", []⟩]) (onePageApi []) 2
      = some ⟨"success", 0, 0⟩ := by
  have h := c9_amended_pipeline_not_found [⟨"p1", "Alpha", []⟩]
    (onePageApi []) 2 [] (by decide)
  refine ⟨h.1, ?_, h.2.2 (by decide)⟩
  rw [h.2.1]
  decide

/-- C10: a failing pipelines listing yields empty dicts, a null
target id and no available-labels warning; a null target id means no
client-side pipeline filter; empty dicts resolve every row's
pipeline and stage label to the empty string; and the run still
completes with a success-status result — loading every fetched deal
when the unfiltered fetch is non-empty. -/
theorem c10_pipelines_failopen :
    fetch_pipelines (Except.error ()) = ⟨[], [], none, none⟩ ∧
    (∀ results, pageFilter none results = results) ∧
    (∀ pid sid, resolveLabels [] [] pid sid = ("", "")) ∧
    (∀ ds, ds ≠ [] →
      etl_run (Except.error ()) (onePageApi ds) 2
        = some ⟨"success", ds.length, ds.length⟩) ∧
    (∀ ds, ∃ r, etl_run (Except.error ()) (onePageApi ds) 2 = some r ∧
      r.status = "success") := by
  have hrun : ∀ ds : List RawDeal, ds ≠ [] →
      etl_run (Except.error ()) (onePageApi ds) 2
        = some ⟨"success", ds.length, ds.length⟩ := by
    intro ds hne
    have hfetch : fetch_all_deals (onePageApi ds) none 2
        = FetchResult.done ds [] := by
      simp [fetch_all_deals, fetchDealsGo, onePageApi, pageFilter]
    have htarget0 : (fetch_pipelines (Except.error ())).target_pipeline_id
        = none := rfl
    simp only [etl_run, htarget0, hfetch]
    cases ds with
    | nil => exact absurd rfl hne
    | cons d rest => simp
  refine ⟨rfl, fun results => rfl, ?_, hrun, ?_⟩
  · intro pid sid
    by_cases hp : pid = "" <;> simp [resolveLabels, hp]
  · intro ds
    cases ds with
    | nil => exact ⟨⟨"success", 0, 0⟩, by decide, rfl⟩
    | cons d rest =>
      refine ⟨⟨"success", (d :: rest).length, (d :: rest).length⟩, ?_, rfl⟩
      exact hrun (d :: rest) (by simp)

/-- C10 witness: the theorem applied at a one-deal unfiltered
fetch after a failed pipelines listing. -/
theorem c10_witness :
    fetch_pipelines (Except.error ()) = ⟨[], [], none, none⟩ ∧
    etl_run (Except.error ()) (onePageApi [⟨"d1", none⟩]) 2
      = some ⟨"success", 1, 1⟩ := by
  have h := c10_pipelines_failopen
  refine ⟨h.1, ?_⟩
  have := h.2.2.2.1 [⟨"d1", none⟩] (by simp)
  simpa using this
